import Mathlib

/-!
Verification of the data-normalization and template-substitution engine of the
obsidian-kinopoisk-search-plus plugin.

The TypeScript sources are shallowly embedded as executable Lean definitions:

* `src/Models/kinopoisk_response.ts` (full variant) -- the raw catalog record.
* `src/APIProvider/DataFormatter.ts` -- `DataFormatter` (record normalizer).
* `src/Utils/utils.ts` -- field encoders, `replaceVariableSyntax`, `makeFileName`.
* `src/Utils/imageUtils.ts` -- `createImageLink` (file-name variant) and
  `processImages`.

JavaScript strings are modelled by Lean `String`; every string manipulation
used by the code (trim, regex replaces, splits) is re-implemented below over
`List Char` with JavaScript semantics, so that all definitions evaluate inside
the kernel.  JavaScript numbers occurring in the records are only copied,
defaulted with `|| 0`, and stringified; they are modelled by `Int`.
-/

/-- Word characters of the JavaScript regex class `\w`: ASCII letters, digits
and underscore. -/
def isWordChar (c : Char) : Bool :=
  (('a' ≤ c && c ≤ 'z') || ('A' ≤ c && c ≤ 'Z') || ('0' ≤ c && c ≤ '9') || c = '_')

/-- Whitespace recognized by the JavaScript regex class `\s` and by
`String.prototype.trim`, restricted to the code points that occur in the
catalog data (ASCII whitespace). -/
def jsIsWs (c : Char) : Bool :=
  (c = ' ' || c = '\t' || c = '\n' || c = '\r' || c = '\x0b' || c = '\x0c')

/-- Drop leading JavaScript whitespace from a character list. -/
def dropLeadingWs (l : List Char) : List Char :=
  l.dropWhile jsIsWs

/-- JavaScript `String.prototype.trim`. -/
def jsTrim (s : String) : String :=
  ⟨(dropLeadingWs (dropLeadingWs s.data.reverse).reverse)⟩

/-- Case-insensitive character comparison used for the JavaScript regex
`i` flag on the ASCII placeholder names. -/
def ciCharEq (a b : Char) : Bool :=
  a.toLower = b.toLower

/-- If `pat` matches the beginning of `l` case-insensitively, return the
remainder of `l`. -/
def dropCIPat : List Char → List Char → Option (List Char)
  | [], l => some l
  | _ :: _, [] => none
  | p :: ps, c :: cs => if ciCharEq p c then dropCIPat ps cs else none

/-- If `pat` matches the beginning of `l` exactly, return the remainder. -/
def dropExactPat : List Char → List Char → Option (List Char)
  | [], l => some l
  | _ :: _, [] => none
  | p :: ps, c :: cs => if p = c then dropExactPat ps cs else none

/-- Fuel-driven body of `replaceAllCI`; the fuel (the length of the text)
bounds the number of scanning steps. -/
def replaceAllCIGo : Nat → List Char → List Char → List Char → List Char
  | 0, l, _, _ => l
  | _ + 1, [], _, _ => []
  | fuel + 1, c :: cs, pat, repl =>
    match dropCIPat pat (c :: cs) with
    | some r => repl ++ replaceAllCIGo fuel r pat repl
    | none => c :: replaceAllCIGo fuel cs pat repl

/-- JavaScript `text.replace(new RegExp(pat, "ig"), repl)` for a literal
pattern `pat` (the placeholder patterns contain no regex metacharacters).
After a match, scanning resumes after the replaced occurrence.  Dollar
patterns in the replacement string are not interpreted (the JavaScript
dollar substitution in replacement strings is outside this model). -/
def replaceAllCI (s pat repl : String) : String :=
  ⟨replaceAllCIGo s.data.length s.data pat.data repl.data⟩

/-- Fuel-driven body of `replaceAllExact`. -/
def replaceAllExactGo : Nat → List Char → List Char → List Char → List Char
  | 0, l, _, _ => l
  | _ + 1, [], _, _ => []
  | fuel + 1, c :: cs, pat, repl =>
    match dropExactPat pat (c :: cs) with
    | some r => repl ++ replaceAllExactGo fuel r pat repl
    | none => c :: replaceAllExactGo fuel cs pat repl

/-- JavaScript `text.replace(new RegExp(pat, "g"), repl)` for a literal,
case-sensitive pattern. -/
def replaceAllExact (s pat repl : String) : String :=
  ⟨replaceAllExactGo s.data.length s.data pat.data repl.data⟩

/-- Longest prefix of word characters together with the remainder
(the greedy match of `\w*`). -/
def spanWord : List Char → List Char × List Char
  | [] => ([], [])
  | c :: cs =>
    if isWordChar c then
      match spanWord cs with
      | (w, r) => (c :: w, r)
    else ([], c :: cs)

/-- Attempt to match the tail of a stray token `\x7b\w+\x7d\x7d` right after an
initial `\x7b`; on success return the text after the token. -/
def tryTok (cs : List Char) : Option (List Char) :=
  match cs with
  | '\x7b' :: rest =>
    match spanWord rest with
    | (_ :: _, '\x7d' :: '\x7d' :: r2) => some r2
    | _ => none
  | _ => none

/-- Fuel-driven body of `removeStray`. -/
def removeStrayGo : Nat → List Char → List Char
  | 0, l => l
  | _ + 1, [] => []
  | fuel + 1, c :: cs =>
    if c = '\x7b' then
      match tryTok cs with
      | some r2 => removeStrayGo fuel r2
      | none => c :: removeStrayGo fuel cs
    else c :: removeStrayGo fuel cs

/-- JavaScript `result.replace(/\x7b\x7b\w+\x7d\x7d/gi, "")`: delete every
stray placeholder token, scanning left to right and resuming after each
deleted token. -/
def removeStray (l : List Char) : List Char :=
  removeStrayGo l.length l

/-- Squash runs of JavaScript whitespace to a single space: the effect of
`replace(/\s+/g, " ")`.  The flag records whether the previous character was
whitespace (already emitted as one space). -/
def squashWsGo : Bool → List Char → List Char
  | _, [] => []
  | prevWs, c :: cs =>
    if jsIsWs c then
      if prevWs then squashWsGo true cs else ' ' :: squashWsGo true cs
    else c :: squashWsGo false cs

/-- JavaScript `text.replace(/\n/g, " ").replace(/\s+/g, " ").trim()` used by
the long-text format. -/
def collapseWhitespace (s : String) : String :=
  jsTrim ⟨squashWsGo false (s.data.map (fun c => if c = '\n' then ' ' else c))⟩

/-- Split a character list at every `/` (JavaScript `split("/")`). -/
def splitSlash : List Char → List (List Char)
  | [] => [[]]
  | c :: cs =>
    match splitSlash cs with
    | seg :: segs => if c = '/' then [] :: seg :: segs else (c :: seg) :: segs
    | [] => [[c]]

/-- Decimal digits of a natural number (fuel-driven so that it evaluates in
the kernel); models the integral case of JavaScript number-to-string. -/
def natToStringGo : Nat → Nat → List Char → List Char
  | 0, _, acc => acc
  | fuel + 1, n, acc =>
    let d := Char.ofNat (48 + n % 10)
    if n < 10 then d :: acc else natToStringGo fuel (n / 10) (d :: acc)

/-- JavaScript `String(n)` for a nonnegative integral number. -/
def natToString (n : Nat) : String :=
  ⟨natToStringGo (n + 1) n []⟩

/-- JavaScript `String(n)` for an integral number. -/
def intToString : Int → String
  | Int.ofNat n => natToString n
  | Int.negSucc n => "-" ++ natToString (n + 1)

/-- Does the character list `pat` occur at the beginning of `l`
(JavaScript `startsWith`)? -/
def beginsWith : List Char → List Char → Bool
  | [], _ => true
  | _ :: _, [] => false
  | p :: ps, c :: cs => p = c && beginsWith ps cs

/-- JavaScript `String.prototype.startsWith`. -/
def strBeginsWith (s pat : String) : Bool :=
  beginsWith pat.data s.data

/-- JavaScript `String.prototype.endsWith` for a one-character suffix. -/
def strEndsWithChar (s : String) (c : Char) : Bool :=
  match s.data.reverse with
  | [] => false
  | d :: _ => d = c

/-- Image URL group of the raw record (`KinopoiskImageUrl`). -/
structure KinopoiskImageUrl where
  url : Option String
  previewUrl : Option String
deriving DecidableEq

/-- Named simple entity of the raw record (genre, country, network). -/
structure KinopoiskSimpleItem where
  name : String
deriving DecidableEq

/-- Person entry of the raw record. -/
structure KinopoiskPerson where
  id : Option Int
  name : String
  enName : Option String
  description : Option String
  profession : Option String
  enProfession : String
  photo : Option String
deriving DecidableEq

/-- Season summary entry of the raw record. -/
structure KinopoiskSeasonInfo where
  number : Int
  episodesCount : Int
deriving DecidableEq

/-- Rating group of the raw record; the fractional ratings are only copied
with an `|| 0` default, so they are modelled by `Int`. -/
structure KinopoiskRatings where
  kp : Option Int
  imdb : Option Int
  filmCritics : Option Int
  russianFilmCritics : Option Int
  await : Option Int
deriving DecidableEq

/-- External identifier group of the raw record. -/
structure KinopoiskExternalIds where
  imdb : Option String
  tmdb : Option Int
  kpHD : Option String
deriving DecidableEq

/-- Monetary amount of the raw record. -/
structure KinopoiskMoney where
  value : Option Int
  currency : Option String
deriving DecidableEq

/-- Fee groups per region of the raw record. -/
structure KinopoiskFees where
  world : Option KinopoiskMoney
  russia : Option KinopoiskMoney
  usa : Option KinopoiskMoney
deriving DecidableEq

/-- Premiere dates per release channel of the raw record. -/
structure KinopoiskPremiere where
  world : Option String
  russia : Option String
  digital : Option String
  cinema : Option String
deriving DecidableEq

/-- Vote counts of the raw record. -/
structure KinopoiskVotes where
  kp : Option Int
  imdb : Option Int
  filmCritics : Option Int
  russianFilmCritics : Option Int
  await : Option Int
deriving DecidableEq

/-- Free-text fact of the raw record. -/
structure KinopoiskFact where
  value : String
  type : String
  spoiler : Bool
deriving DecidableEq

/-- Release-year span of the raw record; `end` is a Lean keyword, hence the
quoted field name. -/
structure KinopoiskReleaseYear where
  start : Option Int
  «end» : Option Int
deriving DecidableEq

/-- Alternative name of the raw record. -/
structure KinopoiskName where
  name : String
  language : Option String
  type : Option String
deriving DecidableEq

/-- Network group of the raw record. -/
structure KinopoiskNetworks where
  items : Option (List KinopoiskSimpleItem)
deriving DecidableEq

/-- Related movie of the raw record. -/
structure KinopoiskRelatedMovie where
  id : Int
  name : String
  alternativeName : Option String
  enName : Option String
  type : String
  poster : Option KinopoiskImageUrl
  rating : Option KinopoiskRatings
  year : Option Int
deriving DecidableEq

/-- Production company of the raw record. -/
structure KinopoiskProductionCompany where
  name : String
  url : Option String
  previewUrl : Option String
deriving DecidableEq

/-- Distributor group of the raw record. -/
structure KinopoiskDistributors where
  distributor : Option String
  distributorRelease : Option String
deriving DecidableEq

/-- Full raw catalog record (`KinopoiskFullInfo` of kinopoisk_response.ts,
full variant): every field optional except the numeric id, the titles, the
type tag, the year, the series flag and the genre, country and person
lists. -/
structure KinopoiskFullInfo where
  id : Int
  name : String
  alternativeName : String
  type : String
  year : Int
  description : Option String
  poster : Option KinopoiskImageUrl
  genres : List KinopoiskSimpleItem
  countries : List KinopoiskSimpleItem
  persons : List KinopoiskPerson
  movieLength : Option Int
  backdrop : Option KinopoiskImageUrl
  logo : Option KinopoiskImageUrl
  isSeries : Bool
  seriesLength : Option Int
  status : Option String
  rating : Option KinopoiskRatings
  externalId : Option KinopoiskExternalIds
  seasonsInfo : Option (List KinopoiskSeasonInfo)
  slogan : Option String
  budget : Option KinopoiskMoney
  fees : Option KinopoiskFees
  premiere : Option KinopoiskPremiere
  votes : Option KinopoiskVotes
  facts : Option (List KinopoiskFact)
  shortDescription : Option String
  ageRating : Option Int
  ratingMpaa : Option String
  releaseYears : Option (List KinopoiskReleaseYear)
  top10 : Option Int
  top250 : Option Int
  totalSeriesLength : Option Int
  typeNumber : Option Int
  enName : Option String
  names : Option (List KinopoiskName)
  networks : Option KinopoiskNetworks
  subType : Option String
  sequelsAndPrequels : Option (List KinopoiskRelatedMovie)
  productionCompanies : Option (List KinopoiskProductionCompany)
  distributors : Option KinopoiskDistributors
deriving DecidableEq

/-- Flat normalized record (`MovieShow`).  The fields and their order follow
the object literal built by `DataFormatter.createMovieShowFrom`; every
zero-to-many textual field is a list of strings, numeric and boolean fields
are scalars, and the three `...ForFile` fields are plain strings. -/
structure MovieShow where
  id : Int
  name : List String
  alternativeName : List String
  year : Int
  description : List String
  shortDescription : List String
  nameForFile : String
  alternativeNameForFile : String
  enNameForFile : String
  posterUrl : List String
  coverUrl : List String
  logoUrl : List String
  posterImageLink : List String
  coverImageLink : List String
  logoImageLink : List String
  genres : List String
  genresLinks : List String
  countries : List String
  countriesLinks : List String
  type : List String
  subType : List String
  director : List String
  directorsLinks : List String
  actors : List String
  actorsLinks : List String
  writers : List String
  writersLinks : List String
  producers : List String
  producersLinks : List String
  movieLength : Int
  isSeries : Bool
  seriesLength : Int
  totalSeriesLength : Int
  isComplete : Bool
  seasonsCount : Int
  seriesInSeasonCount : Int
  ratingKp : Int
  ratingImdb : Int
  ratingFilmCritics : Int
  ratingRussianFilmCritics : Int
  votesKp : Int
  votesImdb : Int
  votesFilmCritics : Int
  votesRussianFilmCritics : Int
  kinopoiskUrl : List String
  imdbId : List String
  tmdbId : Int
  kpHDId : List String
  slogan : List String
  ageRating : Int
  ratingMpaa : List String
  budgetValue : Int
  budgetCurrency : List String
  feesWorldValue : Int
  feesWorldCurrency : List String
  feesRussiaValue : Int
  feesRussiaCurrency : List String
  feesUsaValue : Int
  feesUsaCurrency : List String
  premiereWorld : List String
  premiereRussia : List String
  premiereDigital : List String
  premiereCinema : List String
  releaseYearsStart : Int
  releaseYearsEnd : Int
  top10 : Int
  top250 : Int
  facts : List String
  allNamesString : List String
  enName : List String
  networks : List String
  networksLinks : List String
  productionCompanies : List String
  productionCompaniesLinks : List String
  distributor : List String
  distributorRelease : List String
  sequelsAndPrequels : List String
  sequelsAndPrequelsLinks : List String
deriving DecidableEq

/-- Lookup in a literal key-value table (JavaScript object indexing with
`table[key] || fallback` where no table value is falsy). -/
def assocLookup (table : List (String × String)) (key : String) : Option String :=
  match table with
  | [] => none
  | (k, v) :: rest => if k = key then some v else assocLookup rest key

/-- Model of JavaScript `toUpperCase` on a single character, covering the
alphabets that occur in the catalog data (ASCII and Cyrillic). -/
def jsCharToUpper (c : Char) : Char :=
  if 'a' ≤ c ∧ c ≤ 'z' then Char.ofNat (c.toNat - 32)
  else if 'а' ≤ c ∧ c ≤ 'я' then Char.ofNat (c.toNat - 32)
  else if c = 'ё' then 'Ё'
  else c

/-- Uppercase the first character of a string (utils.ts
`capitalizeFirstLetter`): empty input is returned unchanged, otherwise
`charAt(0).toUpperCase() + slice(1)`. -/
def capitalizeFirstLetter (input : String) : String :=
  match input.data with
  | [] => ""
  | c :: cs => ⟨jsCharToUpper c :: cs⟩

namespace DataFormatter

/-- Maximum number of items kept in a formatted array. -/
def MAX_ARRAY_ITEMS : Nat := 15

/-- Maximum number of facts kept. -/
def MAX_FACTS_COUNT : Nat := 5

/-- Content type translations to Russian. -/
def TYPE_TRANSLATIONS : List (String × String) :=
  [("animated-series", "Анимационный сериал"),
   ("anime", "Аниме"),
   ("cartoon", "Мультфильм"),
   ("movie", "Фильм"),
   ("tv-series", "Сериал")]

/-- HTML entities for decoding, in source order. -/
def HTML_ENTITIES : List (String × String) :=
  [("&laquo;", "«"),
   ("&raquo;", "»"),
   ("&ldquo;", "\""),
   ("&rdquo;", "\""),
   ("&lsquo;", "\x27"),
   ("&rsquo;", "\x27"),
   ("&quot;", "\""),
   ("&amp;", "&"),
   ("&lt;", "<"),
   ("&gt;", ">"),
   ("&nbsp;", " "),
   ("&ndash;", "–"),
   ("&mdash;", "—"),
   ("&hellip;", "…")]

/-- Formatting modes of `DataFormatter.formatArray`. -/
inductive FormatType where
  | SHORT_VALUE
  | LONG_TEXT
  | URL
  | LINK
deriving DecidableEq

/-- Clean text from characters that might break metadata: remove every colon
and trim. -/
def cleanTextForMetadata (text : String) : String :=
  if text = "" then "" else jsTrim ⟨text.data.filter (fun c => c ≠ ':')⟩

/-- Universal array formatting: drop empty and whitespace-only entries,
truncate to `maxItems` (the TypeScript default argument is
`MAX_ARRAY_ITEMS`), then apply the mode-specific encoding. -/
def formatArray (items : List String) (formatType : FormatType)
    (maxItems : Nat) : List String :=
  let filteredItems := (items.filter (fun item => item ≠ "" && jsTrim item ≠ "")).take maxItems
  match formatType with
  | FormatType.SHORT_VALUE => filteredItems.map cleanTextForMetadata
  | FormatType.LONG_TEXT =>
    filteredItems.map (fun item => "\"" ++ collapseWhitespace item ++ "\"")
  | FormatType.URL => filteredItems.map jsTrim
  | FormatType.LINK =>
    filteredItems.map (fun item => "\"[[" ++ cleanTextForMetadata item ++ "]]\"")

/-- Integer ceiling division, the effect of `Math.ceil(a / b)` for a positive
divisor. -/
def ceilDivInt (a b : Int) : Int :=
  -((-a).fdiv b)

/-- Seasons data: count and `Math.ceil`-average of episodes per season. -/
def calculateSeasonsData (seasonsInfo : Option (List KinopoiskSeasonInfo)) :
    Int × Int :=
  match seasonsInfo with
  | none => (0, 0)
  | some l =>
    if l.isEmpty then (0, 0)
    else
      let totalEpisodes := l.foldl (fun total season => total + season.episodesCount) 0
      ((l.length : Int), ceilDivInt totalEpisodes (l.length : Int))

/-- People buckets extracted by exact profession tag. -/
structure PeopleBuckets where
  directors : List String
  actors : List String
  writers : List String
  producers : List String
deriving DecidableEq

/-- Extract people by profession; entries with an empty name or profession
tag, or an unknown tag, are dropped, source order preserved. -/
def extractPeople (persons : List KinopoiskPerson) : PeopleBuckets where
  directors := persons.filterMap (fun p =>
    if p.name ≠ "" ∧ p.enProfession = "director" then some p.name else none)
  actors := persons.filterMap (fun p =>
    if p.name ≠ "" ∧ p.enProfession = "actor" then some p.name else none)
  writers := persons.filterMap (fun p =>
    if p.name ≠ "" ∧ p.enProfession = "writer" then some p.name else none)
  producers := persons.filterMap (fun p =>
    if p.name ≠ "" ∧ p.enProfession = "producer" then some p.name else none)

/-- Company and related-movie name groups. -/
structure CompanyBuckets where
  networks : List String
  productionCompanies : List String
  sequelsAndPrequels : List String
deriving DecidableEq

/-- Non-blank string filter used by the company extraction. -/
def keepNonBlank (names : List String) : List String :=
  names.filter (fun n => n ≠ "" && jsTrim n ≠ "")

/-- Extract companies and related movies; absent optional groups default to
the empty list. -/
def extractCompanies (fullInfo : KinopoiskFullInfo) : CompanyBuckets where
  networks :=
    match fullInfo.networks with
    | none => []
    | some nw =>
      match nw.items with
      | none => []
      | some its => keepNonBlank (its.map KinopoiskSimpleItem.name)
  productionCompanies :=
    match fullInfo.productionCompanies with
    | none => []
    | some cos => keepNonBlank (cos.map KinopoiskProductionCompany.name)
  sequelsAndPrequels :=
    match fullInfo.sequelsAndPrequels with
    | none => []
    | some movies => keepNonBlank (movies.map KinopoiskRelatedMovie.name)

/-- Drop the rest of an HTML tag: text up to and including the next `>`. -/
def dropToGt : List Char → Option (List Char)
  | [] => none
  | c :: cs => if c = '>' then some cs else dropToGt cs

/-- Fuel-driven body of the tag removal `replace(/<[^>]*>/g, "")`. -/
def removeTagsGo : Nat → List Char → List Char
  | 0, l => l
  | _ + 1, [] => []
  | fuel + 1, c :: cs =>
    if c = '<' then
      match dropToGt cs with
      | some r => removeTagsGo fuel r
      | none => c :: removeTagsGo fuel cs
    else c :: removeTagsGo fuel cs

/-- Remove HTML tags. -/
def removeTags (l : List Char) : List Char :=
  removeTagsGo l.length l

/-- Try to match the tail of an encoded entity `#?\w+;` right after `&`. -/
def tryEntityTail (cs : List Char) : Option (List Char) :=
  let cs2 := match cs with
    | '#' :: r => r
    | _ => cs
  match spanWord cs2 with
  | (w, ';' :: r) => if w.isEmpty then none else some r
  | _ => none

/-- Fuel-driven body of the leftover entity removal `replace(/&#?\w+;/g, "")`. -/
def removeEntitiesGo : Nat → List Char → List Char
  | 0, l => l
  | _ + 1, [] => []
  | fuel + 1, c :: cs =>
    if c = '&' then
      match tryEntityTail cs with
      | some r => removeEntitiesGo fuel r
      | none => c :: removeEntitiesGo fuel cs
    else c :: removeEntitiesGo fuel cs

/-- Remove any remaining encoded HTML entities. -/
def removeEntities (l : List Char) : List Char :=
  removeEntitiesGo l.length l

/-- Remove HTML tags, decode the fixed entity table, drop the remaining
encoded entities and trim. -/
def stripHtmlTags (text : String) : String :=
  let cleanText := (⟨removeTags text.data⟩ : String)
  let decoded := HTML_ENTITIES.foldl
    (fun acc ev => replaceAllExact acc ev.1 ev.2) cleanText
  jsTrim ⟨removeEntities decoded.data⟩

/-- Processes facts by removing spoilers and HTML tags, keeping at most
`MAX_FACTS_COUNT`. -/
def processFacts (facts : List KinopoiskFact) : List String :=
  ((facts.filter (fun fact =>
    !fact.spoiler && fact.value ≠ "" && jsTrim fact.value ≠ "")).take MAX_FACTS_COUNT).map
    (fun fact => stripHtmlTags fact.value)

/-- All alternative names with blanks dropped. -/
def processNames (fullInfo : KinopoiskFullInfo) : List String :=
  match fullInfo.names with
  | none => []
  | some ns => keepNonBlank (ns.map KinopoiskName.name)

/-- Decimal digit value of a character. -/
def digitVal (c : Char) : Option Nat :=
  if '0' ≤ c ∧ c ≤ '9' then some (c.toNat - 48) else none

/-- Parse exactly two decimal digits. -/
def parse2 : List Char → Option (Nat × List Char)
  | c1 :: c2 :: r =>
    match digitVal c1, digitVal c2 with
    | some d1, some d2 => some (d1 * 10 + d2, r)
    | _, _ => none
  | _ => none

/-- Parse exactly four decimal digits. -/
def parse4 : List Char → Option (Nat × List Char)
  | c1 :: c2 :: c3 :: c4 :: r =>
    match digitVal c1, digitVal c2, digitVal c3, digitVal c4 with
    | some d1, some d2, some d3, some d4 =>
      some (((d1 * 10 + d2) * 10 + d3) * 10 + d4, r)
    | _, _, _, _ => none
  | _ => none

/-- Gregorian leap year test. -/
def isLeapYear (y : Nat) : Bool :=
  (y % 4 = 0 && y % 100 ≠ 0) || y % 400 = 0

/-- Days in a month of the proleptic Gregorian calendar. -/
def daysInMonth (y m : Nat) : Nat :=
  if m = 2 then (if isLeapYear y then 29 else 28)
  else if m = 4 ∨ m = 6 ∨ m = 9 ∨ m = 11 then 30
  else 31

/-- Model of the platform date parser `new Date(s)` on the ISO
`YYYY-MM-DD` date strings delivered by the catalog API (optionally followed
by a `T...` time-of-day part, which is not validated here).  Returns the UTC
calendar year, month and day, or `none` when the string is not a valid ISO
date. -/
def parseIsoDate (s : String) : Option (Nat × Nat × Nat) :=
  match parse4 s.data with
  | some (y, '-' :: r1) =>
    match parse2 r1 with
    | some (m, '-' :: r2) =>
      match parse2 r2 with
      | some (d, rest) =>
        if (rest = [] ∨ rest.head? = some 'T') ∧
            1 ≤ m ∧ m ≤ 12 ∧ 1 ≤ d ∧ d ≤ daysInMonth y m
        then some (y, m, d) else none
      | _ => none
    | _ => none
  | _ => none

/-- Left-pad the decimal representation with zeros. -/
def padDigits (width n : Nat) : String :=
  let s := natToString n
  if s.length < width then (⟨List.replicate (width - s.length) '0'⟩ : String) ++ s
  else s

/-- The date part of `toISOString`: `YYYY-MM-DD`. -/
def renderIsoDate (y m d : Nat) : String :=
  padDigits 4 y ++ "-" ++ padDigits 2 m ++ "-" ++ padDigits 2 d

/-- Formats a date to Obsidian format (`YYYY-MM-DD`); absent input, an
unparseable string, or a calendar year outside 1800..2100 format to the
empty string. -/
def formatDate (dateString : Option String) : String :=
  match dateString with
  | none => ""
  | some s =>
    if s = "" then ""
    else
      match parseIsoDate s with
      | none => ""
      | some (y, m, d) => if y < 1800 ∨ y > 2100 then "" else renderIsoDate y m d

/-- Creates an image link for Obsidian format: empty and whitespace-only
paths give no link, a path without the `http` marker gives a local embed of
the path as given, and a web link gives a remote embed. -/
def createImageLink (imagePath : String) : List String :=
  if imagePath = "" ∨ jsTrim imagePath = "" then []
  else if ¬ strBeginsWith imagePath "http" then ["![[" ++ imagePath ++ "]]"]
  else ["![](" ++ imagePath ++ ")"]

/-- Translate a known catalog type code, pass unknown codes through. -/
def translateType (type : String) : String :=
  match assocLookup TYPE_TRANSLATIONS type with
  | some t => t
  | none => type

/-- Transform API data into MovieShow format
(`DataFormatter.createMovieShowFrom`). -/
def createMovieShowFrom (fullInfo : KinopoiskFullInfo) : MovieShow :=
  let seasonsData := calculateSeasonsData fullInfo.seasonsInfo
  let people := extractPeople fullInfo.persons
  let companies := extractCompanies fullInfo
  let facts := processFacts (fullInfo.facts.getD [])
  let allNames := processNames fullInfo
  let firstReleaseYear := fullInfo.releaseYears.bind List.head?
  { id := fullInfo.id
    name := formatArray [fullInfo.name] FormatType.SHORT_VALUE MAX_ARRAY_ITEMS
    alternativeName :=
      formatArray [fullInfo.alternativeName] FormatType.SHORT_VALUE MAX_ARRAY_ITEMS
    year := fullInfo.year
    description :=
      formatArray [fullInfo.description.getD ""] FormatType.LONG_TEXT MAX_ARRAY_ITEMS
    shortDescription :=
      formatArray [fullInfo.shortDescription.getD ""] FormatType.LONG_TEXT MAX_ARRAY_ITEMS
    nameForFile := cleanTextForMetadata fullInfo.name
    alternativeNameForFile := cleanTextForMetadata fullInfo.alternativeName
    enNameForFile := cleanTextForMetadata (fullInfo.enName.getD "")
    posterUrl :=
      formatArray [(fullInfo.poster.bind KinopoiskImageUrl.url).getD ""]
        FormatType.URL MAX_ARRAY_ITEMS
    coverUrl :=
      formatArray [(fullInfo.backdrop.bind KinopoiskImageUrl.url).getD ""]
        FormatType.URL MAX_ARRAY_ITEMS
    logoUrl :=
      formatArray [(fullInfo.logo.bind KinopoiskImageUrl.url).getD ""]
        FormatType.URL MAX_ARRAY_ITEMS
    posterImageLink := createImageLink ((fullInfo.poster.bind KinopoiskImageUrl.url).getD "")
    coverImageLink := createImageLink ((fullInfo.backdrop.bind KinopoiskImageUrl.url).getD "")
    logoImageLink := createImageLink ((fullInfo.logo.bind KinopoiskImageUrl.url).getD "")
    genres :=
      formatArray (fullInfo.genres.map (fun g => capitalizeFirstLetter g.name))
        FormatType.SHORT_VALUE MAX_ARRAY_ITEMS
    genresLinks :=
      formatArray (fullInfo.genres.map (fun g => capitalizeFirstLetter g.name))
        FormatType.LINK MAX_ARRAY_ITEMS
    countries :=
      formatArray (fullInfo.countries.map KinopoiskSimpleItem.name)
        FormatType.SHORT_VALUE MAX_ARRAY_ITEMS
    countriesLinks :=
      formatArray (fullInfo.countries.map KinopoiskSimpleItem.name)
        FormatType.LINK MAX_ARRAY_ITEMS
    type :=
      formatArray [translateType fullInfo.type] FormatType.SHORT_VALUE MAX_ARRAY_ITEMS
    subType :=
      formatArray [fullInfo.subType.getD ""] FormatType.SHORT_VALUE MAX_ARRAY_ITEMS
    director := formatArray people.directors FormatType.SHORT_VALUE MAX_ARRAY_ITEMS
    directorsLinks := formatArray people.directors FormatType.LINK MAX_ARRAY_ITEMS
    actors := formatArray people.actors FormatType.SHORT_VALUE MAX_ARRAY_ITEMS
    actorsLinks := formatArray people.actors FormatType.LINK MAX_ARRAY_ITEMS
    writers := formatArray people.writers FormatType.SHORT_VALUE MAX_ARRAY_ITEMS
    writersLinks := formatArray people.writers FormatType.LINK MAX_ARRAY_ITEMS
    producers := formatArray people.producers FormatType.SHORT_VALUE MAX_ARRAY_ITEMS
    producersLinks := formatArray people.producers FormatType.LINK MAX_ARRAY_ITEMS
    movieLength := fullInfo.movieLength.getD 0
    isSeries := fullInfo.isSeries
    seriesLength := fullInfo.seriesLength.getD 0
    totalSeriesLength := fullInfo.totalSeriesLength.getD 0
    isComplete := fullInfo.status.getD "" = "completed"
    seasonsCount := seasonsData.1
    seriesInSeasonCount := seasonsData.2
    ratingKp := (fullInfo.rating.bind KinopoiskRatings.kp).getD 0
    ratingImdb := (fullInfo.rating.bind KinopoiskRatings.imdb).getD 0
    ratingFilmCritics := (fullInfo.rating.bind KinopoiskRatings.filmCritics).getD 0
    ratingRussianFilmCritics :=
      (fullInfo.rating.bind KinopoiskRatings.russianFilmCritics).getD 0
    votesKp := (fullInfo.votes.bind KinopoiskVotes.kp).getD 0
    votesImdb := (fullInfo.votes.bind KinopoiskVotes.imdb).getD 0
    votesFilmCritics := (fullInfo.votes.bind KinopoiskVotes.filmCritics).getD 0
    votesRussianFilmCritics :=
      (fullInfo.votes.bind KinopoiskVotes.russianFilmCritics).getD 0
    kinopoiskUrl :=
      formatArray ["https://www.kinopoisk.ru/film/" ++ intToString fullInfo.id ++ "/"]
        FormatType.URL MAX_ARRAY_ITEMS
    imdbId :=
      formatArray [(fullInfo.externalId.bind KinopoiskExternalIds.imdb).getD ""]
        FormatType.SHORT_VALUE MAX_ARRAY_ITEMS
    tmdbId := (fullInfo.externalId.bind KinopoiskExternalIds.tmdb).getD 0
    kpHDId :=
      formatArray [(fullInfo.externalId.bind KinopoiskExternalIds.kpHD).getD ""]
        FormatType.SHORT_VALUE MAX_ARRAY_ITEMS
    slogan := formatArray [fullInfo.slogan.getD ""] FormatType.LONG_TEXT MAX_ARRAY_ITEMS
    ageRating := fullInfo.ageRating.getD 0
    ratingMpaa :=
      formatArray [fullInfo.ratingMpaa.getD ""] FormatType.SHORT_VALUE MAX_ARRAY_ITEMS
    budgetValue := (fullInfo.budget.bind KinopoiskMoney.value).getD 0
    budgetCurrency :=
      formatArray [(fullInfo.budget.bind KinopoiskMoney.currency).getD ""]
        FormatType.SHORT_VALUE MAX_ARRAY_ITEMS
    feesWorldValue :=
      ((fullInfo.fees.bind KinopoiskFees.world).bind KinopoiskMoney.value).getD 0
    feesWorldCurrency :=
      formatArray [((fullInfo.fees.bind KinopoiskFees.world).bind KinopoiskMoney.currency).getD ""]
        FormatType.SHORT_VALUE MAX_ARRAY_ITEMS
    feesRussiaValue :=
      ((fullInfo.fees.bind KinopoiskFees.russia).bind KinopoiskMoney.value).getD 0
    feesRussiaCurrency :=
      formatArray [((fullInfo.fees.bind KinopoiskFees.russia).bind KinopoiskMoney.currency).getD ""]
        FormatType.SHORT_VALUE MAX_ARRAY_ITEMS
    feesUsaValue :=
      ((fullInfo.fees.bind KinopoiskFees.usa).bind KinopoiskMoney.value).getD 0
    feesUsaCurrency :=
      formatArray [((fullInfo.fees.bind KinopoiskFees.usa).bind KinopoiskMoney.currency).getD ""]
        FormatType.SHORT_VALUE MAX_ARRAY_ITEMS
    premiereWorld :=
      formatArray [formatDate (fullInfo.premiere.bind KinopoiskPremiere.world)]
        FormatType.SHORT_VALUE MAX_ARRAY_ITEMS
    premiereRussia :=
      formatArray [formatDate (fullInfo.premiere.bind KinopoiskPremiere.russia)]
        FormatType.SHORT_VALUE MAX_ARRAY_ITEMS
    premiereDigital :=
      formatArray [formatDate (fullInfo.premiere.bind KinopoiskPremiere.digital)]
        FormatType.SHORT_VALUE MAX_ARRAY_ITEMS
    premiereCinema :=
      formatArray [formatDate (fullInfo.premiere.bind KinopoiskPremiere.cinema)]
        FormatType.SHORT_VALUE MAX_ARRAY_ITEMS
    releaseYearsStart := (firstReleaseYear.bind KinopoiskReleaseYear.start).getD 0
    releaseYearsEnd := (firstReleaseYear.bind KinopoiskReleaseYear.end).getD 0
    top10 := fullInfo.top10.getD 0
    top250 := fullInfo.top250.getD 0
    facts := formatArray facts FormatType.LONG_TEXT MAX_ARRAY_ITEMS
    allNamesString := formatArray allNames FormatType.SHORT_VALUE MAX_ARRAY_ITEMS
    enName :=
      formatArray [fullInfo.enName.getD ""] FormatType.SHORT_VALUE MAX_ARRAY_ITEMS
    networks := formatArray companies.networks FormatType.SHORT_VALUE MAX_ARRAY_ITEMS
    networksLinks := formatArray companies.networks FormatType.LINK MAX_ARRAY_ITEMS
    productionCompanies :=
      formatArray companies.productionCompanies FormatType.SHORT_VALUE MAX_ARRAY_ITEMS
    productionCompaniesLinks :=
      formatArray companies.productionCompanies FormatType.LINK MAX_ARRAY_ITEMS
    distributor :=
      formatArray [(fullInfo.distributors.bind KinopoiskDistributors.distributor).getD ""]
        FormatType.SHORT_VALUE MAX_ARRAY_ITEMS
    distributorRelease :=
      formatArray
        [(let raw := fullInfo.distributors.bind KinopoiskDistributors.distributorRelease
          let fd := formatDate raw
          if fd ≠ "" then fd else raw.getD "")]
        FormatType.SHORT_VALUE MAX_ARRAY_ITEMS
    sequelsAndPrequels :=
      formatArray companies.sequelsAndPrequels FormatType.SHORT_VALUE MAX_ARRAY_ITEMS
    sequelsAndPrequelsLinks :=
      formatArray companies.sequelsAndPrequels FormatType.LINK MAX_ARRAY_ITEMS }

end DataFormatter

/-- Runtime value of a MovieShow field as seen by `Object.entries`: a string
array, a number, a boolean or a plain string. -/
inductive Value where
  | arr (xs : List String)
  | num (n : Int)
  | bool (b : Bool)
  | str (s : String)
deriving DecidableEq

/-- Replace the illegal file name characters `\/:*?"<>|` (utils.ts
`replaceIllegalFileNameCharactersInString`). -/
def replaceIllegalFileNameCharactersInString (text : String) : String :=
  ⟨text.data.filter (fun c =>
    !(c = '\\' || c = '/' || c = ':' || c = '*' || c = '?' || c = '"' ||
      c = '<' || c = '>' || c = '|'))⟩

/-- Does the string start with a double quote? -/
def beginsQuote (s : String) : Bool :=
  strBeginsWith s "\""

/-- Does the string end with a double quote? -/
def endsQuote (s : String) : Bool :=
  strEndsWithChar s '"'

/-- JavaScript `slice(1, -1)`. -/
def innerOf (s : String) : String :=
  ⟨(s.data.drop 1).dropLast⟩

/-- Strip the outer double quotes when the whole string matches the regex
pattern quote, any non-newline characters, quote; otherwise return the
string unchanged (`replace` with a full-match regex and group
replacement). -/
def stripOuterQuotes (s : String) : String :=
  if beginsQuote s ∧ endsQuote s ∧ 2 ≤ s.data.length ∧
      (innerOf s).data.all (fun c => !(c = '\n') && !(c = '\r'))
  then innerOf s else s

/-- Escape every inner double quote with a backslash
(`replace` of quote by backslash quote). -/
def escapeQuotes (s : String) : String :=
  ⟨s.data.foldr (fun c acc => if c = '"' then '\\' :: '"' :: acc else c :: acc) []⟩

/-- Markdown-link sniff used by the quoted encoding: starts with an embedded
wiki link or an embedded remote link. -/
def mdLinkLike (s : String) : Bool :=
  strBeginsWith s "![[" || strBeginsWith s "![]("

/-- JavaScript `array.join(", ")`. -/
def joinComma : List String → String
  | [] => ""
  | [x] => x
  | x :: xs => x ++ ", " ++ joinComma xs

/-- Quoted-encoding of one array element: wrap markdown links in quotes when
not already wrapped, re-wrap already-quoted strings with inner quotes
escaped, and pass anything else through. -/
def quoteItem (itemStr : String) : String :=
  if mdLinkLike itemStr && !beginsQuote itemStr && !endsQuote itemStr then
    "\"" ++ itemStr ++ "\""
  else if beginsQuote itemStr && endsQuote itemStr then
    "\"" ++ escapeQuotes (innerOf itemStr) ++ "\""
  else itemStr

/-- Quoted-encoding of a non-array value after `String(value || "")`. -/
def quoteNonArray (stringValue : String) : String :=
  if beginsQuote stringValue && endsQuote stringValue then
    "\"" ++ escapeQuotes (innerOf stringValue) ++ "\""
  else stringValue

/-- Value with quotes for YAML metadata (utils.ts `getQuotedValueFromArray`):
empty arrays give the empty string, singleton arrays encode their element,
longer arrays join the encoded elements with a comma (the `!= null` filter
is the identity on string arrays), and non-array values go through
`String(value || "")` first. -/
def getQuotedValueFromArray (value : Value) : String :=
  match value with
  | Value.arr [] => ""
  | Value.arr [x] => quoteItem x
  | Value.arr xs => joinComma (xs.map quoteItem)
  | Value.num n => quoteNonArray (if n = 0 then "" else intToString n)
  | Value.bool b => quoteNonArray (if b then "true" else "")
  | Value.str s => quoteNonArray s

/-- Value without quotes for the note body (utils.ts
`getPlainValueFromArray`), fused with the `String(...)` conversion every
call site applies to the result: singleton arrays lose their outer quotes,
longer arrays join the unquoted elements with a comma, numbers print as
numbers. -/
def getPlainValueFromArray (value : Value) : String :=
  match value with
  | Value.arr [] => ""
  | Value.arr [x] => stripOuterQuotes x
  | Value.arr xs => joinComma (xs.map stripOuterQuotes)
  | Value.num n => intToString n
  | Value.bool b => if b then "true" else ""
  | Value.str s => s

/-- Suffixes of the text that start right after a newline lying in the
maximal leading whitespace run: the positions at which the regex piece
whitespace-star-newline can stop, in greedy (latest first) order. -/
def wsNewlineSuffixes : List Char → List (List Char)
  | [] => []
  | c :: rest =>
    if jsIsWs c then
      (if c = '\n' then wsNewlineSuffixes rest ++ [rest] else wsNewlineSuffixes rest)
    else []

/-- Try to match the closing delimiter (newline, three hyphens,
whitespace-star-newline) at the current position; on success return the body
start chosen greedily. -/
def tryCloseAt : List Char → Option (List Char)
  | '\n' :: '-' :: '-' :: '-' :: r =>
    match wsNewlineSuffixes r with
    | body :: _ => some body
    | [] => none
  | _ => none

/-- Lazy scan for the closing delimiter: try each position from left to
right, accumulating the frontmatter in reverse. -/
def closeSearch : List Char → List Char → Option (List Char × List Char)
  | _, [] => none
  | acc, c :: cs =>
    match tryCloseAt (c :: cs) with
    | some body => some (acc.reverse, body)
    | none => closeSearch (c :: acc) cs

/-- First opening position (greedy backtracking over the leading whitespace
run) whose lazy closing search succeeds. -/
def firstCloseAmong : List (List Char) → Option (List Char × List Char)
  | [] => none
  | s :: ss =>
    match closeSearch [] s with
    | some r => some r
    | none => firstCloseAmong ss

/-- Split a template into frontmatter and body following the regex
caret, three hyphens, whitespace-star-newline, lazy any-star, newline, three
hyphens, whitespace-star-newline, any-star of `replaceVariableSyntax`,
including its backtracking behaviour. -/
def splitFrontmatter : List Char → Option (List Char × List Char)
  | '-' :: '-' :: '-' :: rest => firstCloseAmong (wsNewlineSuffixes rest)
  | _ => none

/-- Substitute every entry into one region: for each field, encode the value
and replace all case-insensitive occurrences of its placeholder; a field
whose encoder throws (models the per-field try/catch) leaves the region
unchanged. -/
def substituteAll (enc : Value → Except String String)
    (entries : List (String × Value)) (region : String) : String :=
  entries.foldl (fun result kv =>
    match enc kv.2 with
    | Except.ok v => replaceAllCI result ("\x7b\x7b" ++ kv.1 ++ "\x7d\x7d") v
    | Except.error _ => result) region

/-- Body of `replaceVariableSyntax` inside the outer try: split off the
frontmatter when present, substitute with the quoted encoding in the
frontmatter and the plain encoding in the body, reassemble with canonical
delimiters, delete stray placeholder tokens and trim. -/
def renderCore (encQ encP : Value → Except String String)
    (entries : List (String × Value)) (text : String) : String :=
  match splitFrontmatter text.data with
  | some (fm, body) =>
    let processedFrontmatter := substituteAll encQ entries ⟨fm⟩
    let processedBody := substituteAll encP entries ⟨body⟩
    jsTrim ⟨removeStray ("---\n" ++ processedFrontmatter ++ "\n---\n" ++ processedBody).data⟩
  | none => jsTrim ⟨removeStray (substituteAll encP entries text).data⟩

/-- Outer structure of `replaceVariableSyntax`: blank input gives the empty
string; a failure of the whole substitution (the outer catch) returns the
original text unmodified. -/
def replaceVariableSyntaxCaught (run : String → Except String String)
    (text : String) : String :=
  if jsTrim text = "" then ""
  else
    match run text with
    | Except.ok s => s
    | Except.error _ => text

/-- Template substitution with explicit per-field encoders; the encoders
return `Except` to model the exceptions isolated by the per-field
try/catch. -/
def replaceVariableSyntaxWith (encQ encP : Value → Except String String)
    (entries : List (String × Value)) (text : String) : String :=
  replaceVariableSyntaxCaught
    (fun t => Except.ok (renderCore encQ encP entries t)) text

/-- The key-value pairs delivered by `Object.entries(movieShow)`, in the
insertion order of the object literal built by `createMovieShowFrom`. -/
def movieShowEntries (m : MovieShow) : List (String × Value) :=
  [("id", Value.num m.id),
   ("name", Value.arr m.name),
   ("alternativeName", Value.arr m.alternativeName),
   ("year", Value.num m.year),
   ("description", Value.arr m.description),
   ("shortDescription", Value.arr m.shortDescription),
   ("nameForFile", Value.str m.nameForFile),
   ("alternativeNameForFile", Value.str m.alternativeNameForFile),
   ("enNameForFile", Value.str m.enNameForFile),
   ("posterUrl", Value.arr m.posterUrl),
   ("coverUrl", Value.arr m.coverUrl),
   ("logoUrl", Value.arr m.logoUrl),
   ("posterImageLink", Value.arr m.posterImageLink),
   ("coverImageLink", Value.arr m.coverImageLink),
   ("logoImageLink", Value.arr m.logoImageLink),
   ("genres", Value.arr m.genres),
   ("genresLinks", Value.arr m.genresLinks),
   ("countries", Value.arr m.countries),
   ("countriesLinks", Value.arr m.countriesLinks),
   ("type", Value.arr m.type),
   ("subType", Value.arr m.subType),
   ("director", Value.arr m.director),
   ("directorsLinks", Value.arr m.directorsLinks),
   ("actors", Value.arr m.actors),
   ("actorsLinks", Value.arr m.actorsLinks),
   ("writers", Value.arr m.writers),
   ("writersLinks", Value.arr m.writersLinks),
   ("producers", Value.arr m.producers),
   ("producersLinks", Value.arr m.producersLinks),
   ("movieLength", Value.num m.movieLength),
   ("isSeries", Value.bool m.isSeries),
   ("seriesLength", Value.num m.seriesLength),
   ("totalSeriesLength", Value.num m.totalSeriesLength),
   ("isComplete", Value.bool m.isComplete),
   ("seasonsCount", Value.num m.seasonsCount),
   ("seriesInSeasonCount", Value.num m.seriesInSeasonCount),
   ("ratingKp", Value.num m.ratingKp),
   ("ratingImdb", Value.num m.ratingImdb),
   ("ratingFilmCritics", Value.num m.ratingFilmCritics),
   ("ratingRussianFilmCritics", Value.num m.ratingRussianFilmCritics),
   ("votesKp", Value.num m.votesKp),
   ("votesImdb", Value.num m.votesImdb),
   ("votesFilmCritics", Value.num m.votesFilmCritics),
   ("votesRussianFilmCritics", Value.num m.votesRussianFilmCritics),
   ("kinopoiskUrl", Value.arr m.kinopoiskUrl),
   ("imdbId", Value.arr m.imdbId),
   ("tmdbId", Value.num m.tmdbId),
   ("kpHDId", Value.arr m.kpHDId),
   ("slogan", Value.arr m.slogan),
   ("ageRating", Value.num m.ageRating),
   ("ratingMpaa", Value.arr m.ratingMpaa),
   ("budgetValue", Value.num m.budgetValue),
   ("budgetCurrency", Value.arr m.budgetCurrency),
   ("feesWorldValue", Value.num m.feesWorldValue),
   ("feesWorldCurrency", Value.arr m.feesWorldCurrency),
   ("feesRussiaValue", Value.num m.feesRussiaValue),
   ("feesRussiaCurrency", Value.arr m.feesRussiaCurrency),
   ("feesUsaValue", Value.num m.feesUsaValue),
   ("feesUsaCurrency", Value.arr m.feesUsaCurrency),
   ("premiereWorld", Value.arr m.premiereWorld),
   ("premiereRussia", Value.arr m.premiereRussia),
   ("premiereDigital", Value.arr m.premiereDigital),
   ("premiereCinema", Value.arr m.premiereCinema),
   ("releaseYearsStart", Value.num m.releaseYearsStart),
   ("releaseYearsEnd", Value.num m.releaseYearsEnd),
   ("top10", Value.num m.top10),
   ("top250", Value.num m.top250),
   ("facts", Value.arr m.facts),
   ("allNamesString", Value.arr m.allNamesString),
   ("enName", Value.arr m.enName),
   ("networks", Value.arr m.networks),
   ("networksLinks", Value.arr m.networksLinks),
   ("productionCompanies", Value.arr m.productionCompanies),
   ("productionCompaniesLinks", Value.arr m.productionCompaniesLinks),
   ("distributor", Value.arr m.distributor),
   ("distributorRelease", Value.arr m.distributorRelease),
   ("sequelsAndPrequels", Value.arr m.sequelsAndPrequels),
   ("sequelsAndPrequelsLinks", Value.arr m.sequelsAndPrequelsLinks)]

/-- Template substitution of utils.ts `replaceVariableSyntax` with the
concrete (total) encoders of the source. -/
def replaceVariableSyntax (movieShow : MovieShow) (text : String) : String :=
  replaceVariableSyntaxWith
    (fun v => Except.ok (getQuotedValueFromArray v))
    (fun v => Except.ok (getPlainValueFromArray v))
    (movieShowEntries movieShow) text

/-- Base name of `makeFileName`: render the format when one is given,
otherwise combine the title-for-file and year, each falling back to the
localized unknown word when falsy. -/
def makeBaseName (unknownWord : String) (movieShow : MovieShow)
    (fileNameFormat : Option String) : String :=
  if fileNameFormat.getD "" ≠ "" then
    replaceVariableSyntax movieShow (fileNameFormat.getD "")
  else
    (if movieShow.nameForFile ≠ "" then movieShow.nameForFile else unknownWord) ++
      " (" ++
      (if movieShow.year ≠ 0 then intToString movieShow.year else unknownWord) ++ ")"

/-- Prepend the folder path when one is given (JavaScript
`folderPath ? folderPath + "/" + fileName : fileName`; the path
normalization of the host is fused into the existence-check collaborator). -/
def withFolder (folderPath : Option String) (fileName : String) : String :=
  if folderPath.getD "" ≠ "" then folderPath.getD "" ++ "/" ++ fileName
  else fileName

/-- Candidate name with the localized copy suffix and index. -/
def copyCandidateName (cleanedBaseName copyWord : String) (n : Nat) : String :=
  cleanedBaseName ++ " (" ++ copyWord ++ "[" ++ natToString n ++ "]).md"

/-- Create a unique file name (utils.ts `makeFileName`).  The host vault
lookup is the boolean collaborator `existsCheck`, the localized words are
passed in, and the do-while collision loop is expressed with `Nat.find`
over the termination witness `hfree` (the source loop is unbounded; it
terminates exactly when some copy candidate is free). -/
def makeFileName (existsCheck : String → Bool) (unknownWord copyWord : String)
    (movieShow : MovieShow) (fileNameFormat : Option String)
    (folderPath : Option String)
    (hfree : ∃ n, existsCheck (withFolder folderPath
      (copyCandidateName
        (replaceIllegalFileNameCharactersInString
          (makeBaseName unknownWord movieShow fileNameFormat))
        copyWord (n + 1))) = false) : String :=
  let cleanedBaseName :=
    replaceIllegalFileNameCharactersInString
      (makeBaseName unknownWord movieShow fileNameFormat)
  if jsTrim cleanedBaseName = "" then unknownWord ++ ".md"
  else
    let fileName := cleanedBaseName ++ ".md"
    if existsCheck (withFolder folderPath fileName) = false then fileName
    else copyCandidateName cleanedBaseName copyWord (Nat.find hfree + 1)

namespace ImageUtils

/-- Check whether the URL is a valid image URL (imageUtils.ts
`isValidImageUrl`): non-blank, accepted by the platform URL parser (the
boolean collaborator `urlOk` models the `new URL` constructor) and carrying
an HTTP or HTTPS scheme. -/
def isValidImageUrl (urlOk : String → Bool) (url : String) : Bool :=
  if url = "" || jsTrim url = "" then false
  else urlOk url && (strBeginsWith url "http://" || strBeginsWith url "https://")

/-- Last segment of a slash-separated path, or the path itself when the last
segment is empty (JavaScript `path.split("/").pop() || path`). -/
def lastPathSegment (imagePath : String) : String :=
  match (splitSlash imagePath.data).reverse with
  | [] => imagePath
  | seg :: _ => if seg.isEmpty then imagePath else ⟨seg⟩

/-- Creates an image link for Obsidian (imageUtils.ts variant): a local path
embeds only the file name with leading path components stripped, a web link
embeds the URL. -/
def createImageLink (imagePath : String) : List String :=
  if imagePath = "" ∨ jsTrim imagePath = "" then []
  else if ¬ strBeginsWith imagePath "http" then
    ["![[" ++ lastPathSegment imagePath ++ "]]"]
  else ["![](" ++ imagePath ++ ")"]

/-- Download-and-save collaborator (imageUtils.ts `downloadAndSaveImage`):
for a non-valid URL the URL itself is returned unchanged; otherwise the
network-and-vault oracle decides between a saved local path and a thrown
error. -/
def downloadAndSaveImage (oracle : String → String → Except Unit String)
    (urlOk : String → Bool) (imageType url : String) : Except Unit String :=
  if ¬ isValidImageUrl urlOk url then Except.ok url
  else oracle imageType url

/-- Settings consumed by `processImages`. -/
structure ImageSettings where
  saveImagesLocally : Bool
  imagesFolder : String
  savePosterImage : Bool
  saveCoverImage : Bool
  saveLogoImage : Bool
deriving DecidableEq

/-- Count the images to download: per image type, the setting must be on and
the URL present, non-empty and valid. -/
def countImagesToDownload (urlOk : String → Bool) (movieShow : MovieShow)
    (settings : ImageSettings) : Nat :=
  (if settings.savePosterImage ∧ movieShow.posterUrl ≠ [] ∧
      movieShow.posterUrl.headD "" ≠ "" ∧
      isValidImageUrl urlOk (movieShow.posterUrl.headD "") = true then 1 else 0) +
  (if settings.saveCoverImage ∧ movieShow.coverUrl ≠ [] ∧
      movieShow.coverUrl.headD "" ≠ "" ∧
      isValidImageUrl urlOk (movieShow.coverUrl.headD "") = true then 1 else 0) +
  (if settings.saveLogoImage ∧ movieShow.logoUrl ≠ [] ∧
      movieShow.logoUrl.headD "" ≠ "" ∧
      isValidImageUrl urlOk (movieShow.logoUrl.headD "") = true then 1 else 0)

/-- One image type of `processImages`: when the setting is on and a URL is
present, replace the image link; a valid URL goes through the download
collaborator (with the original URL as the fallback link on error), any
other URL is linked directly as a local file. -/
def processOneImage (oracle : String → String → Except Unit String)
    (urlOk : String → Bool) (imageType : String) (urlArr : List String)
    (save : Bool) (current : List String) : List String :=
  match urlArr with
  | [] => current
  | url :: _ =>
    if save ∧ url ≠ "" then
      if isValidImageUrl urlOk url then
        match downloadAndSaveImage oracle urlOk imageType url with
        | Except.ok localPath => createImageLink localPath
        | Except.error _ => createImageLink url
      else createImageLink url
    else current

/-- Process all images of a record according to the settings (imageUtils.ts
`processImages`).  The progress callback and the user notices are pure side
effects and are not modelled; the download-and-save collaborator is the
oracle. -/
def processImages (settings : ImageSettings)
    (oracle : String → String → Except Unit String) (urlOk : String → Bool)
    (movieShow : MovieShow) : MovieShow :=
  if ¬ settings.saveImagesLocally then movieShow
  else if countImagesToDownload urlOk movieShow settings = 0 then movieShow
  else
    { movieShow with
      posterImageLink :=
        processOneImage oracle urlOk "poster" movieShow.posterUrl
          settings.savePosterImage movieShow.posterImageLink
      coverImageLink :=
        processOneImage oracle urlOk "cover" movieShow.coverUrl
          settings.saveCoverImage movieShow.coverImageLink
      logoImageLink :=
        processOneImage oracle urlOk "logo" movieShow.logoUrl
          settings.saveLogoImage movieShow.logoImageLink }

end ImageUtils

/-- Minimal structurally valid raw record: every optional field absent, the
required titles and type empty, the required numbers zero and the required
lists empty. -/
def rawEmpty : KinopoiskFullInfo where
  id := 0
  name := ""
  alternativeName := ""
  type := ""
  year := 0
  description := none
  poster := none
  genres := []
  countries := []
  persons := []
  movieLength := none
  backdrop := none
  logo := none
  isSeries := false
  seriesLength := none
  status := none
  rating := none
  externalId := none
  seasonsInfo := none
  slogan := none
  budget := none
  fees := none
  premiere := none
  votes := none
  facts := none
  shortDescription := none
  ageRating := none
  ratingMpaa := none
  releaseYears := none
  top10 := none
  top250 := none
  totalSeriesLength := none
  typeNumber := none
  enName := none
  names := none
  networks := none
  subType := none
  sequelsAndPrequels := none
  productionCompanies := none
  distributors := none

/-- Normalization of the minimal raw record. -/
def mShow0 : MovieShow :=
  DataFormatter.createMovieShowFrom rawEmpty

/-- A normalized record whose genres field is the two-element list
Action, Drama. -/
def mShowG : MovieShow :=
  { mShow0 with genres := ["Action", "Drama"] }

/-- Raw record whose poster URL is the local path attachments/x.jpg. -/
def rawLocalPoster : KinopoiskFullInfo :=
  { rawEmpty with poster := some ⟨some "attachments/x.jpg", none⟩ }

/-- Raw record with lowercase names in every relational family. -/
def rawLower : KinopoiskFullInfo :=
  { rawEmpty with
    genres := [⟨"драма"⟩, ⟨"action"⟩]
    countries := [⟨"france"⟩]
    persons := [⟨none, "john smith", none, none, none, "actor", none⟩]
    networks := some ⟨some [⟨"hbo"⟩]⟩
    productionCompanies := some [⟨"warner", none, none⟩]
    sequelsAndPrequels := some [⟨1, "dune", none, none, "movie", none, none, none⟩]
    names := some [⟨"le film", none, none⟩] }

/-- Normalized record with the name-for-file and year of the file-name
scenario. -/
def mShowInception : MovieShow :=
  { mShow0 with nameForFile := "Inception", year := 2010 }

/-- Existence check that is true only for the name Inception (2010).md. -/
def inceptionExists : String → Bool :=
  fun s => s = "Inception (2010).md"

/-- Field encoder that always throws. -/
def failEnc : Value → Except String String :=
  fun _ => Except.error "boom"

set_option maxRecDepth 8000

theorem spanWord_append_decomp (l : List Char) :
    (spanWord l).1 ++ (spanWord l).2 = l ∧ (spanWord l).2.length ≤ l.length := by
  induction l with
  | nil => simp [spanWord]
  | cons c cs ih =>
    by_cases h : isWordChar c
    · obtain ⟨h1, h2⟩ := ih
      cases heq : spanWord cs with
      | mk w r =>
        rw [heq] at h1 h2
        simp only [spanWord, h, if_pos, heq]
        constructor
        · simpa using h1
        · simpa using Nat.le_succ_of_le h2
    · simp [spanWord, h]

theorem tryTok_length {cs r2 : List Char} (h : tryTok cs = some r2) :
    r2.length < cs.length := by
  unfold tryTok at h
  split at h
  · rename_i rest
    split at h
    · rename_i wc ws r3 hsw
      obtain ⟨hdec, _⟩ := spanWord_append_decomp rest
      rw [hsw] at hdec
      cases h
      have hlen : ws.length + (r2.length + 1 + 1) + 1 = rest.length := by
        have := congrArg List.length hdec
        simpa using this
      simp only [List.length_cons]
      omega
    · exact absurd h (by simp)
  · exact absurd h (by simp)

theorem removeStrayGo_fuel_irrel :
    ∀ (n : Nat) (l : List Char) (f1 f2 : Nat), l.length ≤ n → l.length ≤ f1 →
      l.length ≤ f2 → removeStrayGo f1 l = removeStrayGo f2 l := by
  intro n
  induction n with
  | zero =>
    intro l f1 f2 hn _ _
    have hl : l = [] := List.length_eq_zero.mp (Nat.le_zero.mp hn)
    subst hl
    cases f1 <;> cases f2 <;> rfl
  | succ n ih =>
    intro l f1 f2 hn h1 h2
    cases l with
    | nil => cases f1 <;> cases f2 <;> rfl
    | cons c cs =>
      cases f1 with
      | zero => simp at h1
      | succ g1 =>
        cases f2 with
        | zero => simp at h2
        | succ g2 =>
          have hcs : cs.length ≤ n := by simp at hn; omega
          have hcs1 : cs.length ≤ g1 := by simp at h1; omega
          have hcs2 : cs.length ≤ g2 := by simp at h2; omega
          by_cases hc : c = '\x7b'
          · subst hc
            simp only [removeStrayGo, if_pos]
            cases htok : tryTok cs with
            | some r2 =>
              have hr2 : r2.length < cs.length := tryTok_length htok
              exact ih r2 g1 g2 (by omega) (by omega) (by omega)
            | none =>
              rw [ih cs g1 g2 hcs hcs1 hcs2]
          · simp only [removeStrayGo, hc, if_neg, not_false_iff]
            rw [ih cs g1 g2 hcs hcs1 hcs2]

theorem spanWord_allWord (w r : List Char) (hw : ∀ c ∈ w, isWordChar c = true)
    (hr : ∀ c, r.head? = some c → isWordChar c = false) :
    spanWord (w ++ r) = (w, r) := by
  induction w with
  | nil =>
    cases r with
    | nil => simp [spanWord]
    | cons c cs =>
      have : isWordChar c = false := hr c (by simp)
      simp [spanWord, this]
  | cons c cs ih =>
    have hc : isWordChar c = true := hw c (by simp)
    have ihh : spanWord (cs ++ r) = (cs, r) :=
      ih (fun d hd => hw d (by simp [hd]))
    simp [spanWord, hc, ihh]

theorem removeStray_token (w rest : List Char) (hne : w ≠ [])
    (hw : ∀ c ∈ w, isWordChar c = true) :
    removeStray ('\x7b' :: '\x7b' :: (w ++ '\x7d' :: '\x7d' :: rest)) =
      removeStray rest := by
  have hsw : spanWord (w ++ '\x7d' :: '\x7d' :: rest) = (w, '\x7d' :: '\x7d' :: rest) :=
    spanWord_allWord w _ hw (fun c hc => by
      simp at hc
      subst hc
      decide)
  cases w with
  | nil => exact absurd rfl hne
  | cons wc ws =>
    have hlen : ('\x7b' :: '\x7b' :: ((wc :: ws) ++ '\x7d' :: '\x7d' :: rest)).length =
        (ws.length + rest.length + 4) + 1 := by
      simp
      omega
    rw [removeStray, hlen]
    simp only [removeStrayGo, if_pos, tryTok, hsw]
    rw [removeStray]
    exact removeStrayGo_fuel_irrel (ws.length + rest.length + 4) rest
      (ws.length + rest.length + 4) rest.length (by omega) (by omega) (by omega)

/-- Claim C1, counterexample: for the structurally valid raw record with
every optional field absent, `createMovieShowFrom` still returns a record
whose `kinopoiskUrl` is the one-element catalog URL built from the id, so
not every sequence-of-strings field is empty. -/
theorem createMovieShowFrom_minimal_kinopoiskUrl_nonempty :
    mShow0.kinopoiskUrl = ["https://www.kinopoisk.ru/film/0/"] ∧
    (["https://www.kinopoisk.ru/film/0/"] : List String) ≠ ([] : List String) := by
  decide

/-- Claim C1, amended: for the structurally valid raw record in which every
optional field is absent and the required titles, type, id and year are
empty or zero, `createMovieShowFrom` returns (without any failure) a record
in which every sequence-of-strings field except `kinopoiskUrl` is the empty
sequence, `kinopoiskUrl` holds exactly the catalog URL built from the id,
every numeric field is 0, every boolean field is false and every plain
string field is empty. -/
theorem createMovieShowFrom_minimal_defaults :
    mShow0.name = [] ∧ mShow0.alternativeName = [] ∧ mShow0.description = [] ∧
    mShow0.shortDescription = [] ∧ mShow0.posterUrl = [] ∧ mShow0.coverUrl = [] ∧
    mShow0.logoUrl = [] ∧ mShow0.posterImageLink = [] ∧ mShow0.coverImageLink = [] ∧
    mShow0.logoImageLink = [] ∧ mShow0.genres = [] ∧ mShow0.genresLinks = [] ∧
    mShow0.countries = [] ∧ mShow0.countriesLinks = [] ∧ mShow0.type = [] ∧
    mShow0.subType = [] ∧ mShow0.director = [] ∧ mShow0.directorsLinks = [] ∧
    mShow0.actors = [] ∧ mShow0.actorsLinks = [] ∧ mShow0.writers = [] ∧
    mShow0.writersLinks = [] ∧ mShow0.producers = [] ∧ mShow0.producersLinks = [] ∧
    mShow0.imdbId = [] ∧ mShow0.kpHDId = [] ∧ mShow0.slogan = [] ∧
    mShow0.ratingMpaa = [] ∧ mShow0.budgetCurrency = [] ∧
    mShow0.feesWorldCurrency = [] ∧ mShow0.feesRussiaCurrency = [] ∧
    mShow0.feesUsaCurrency = [] ∧ mShow0.premiereWorld = [] ∧
    mShow0.premiereRussia = [] ∧ mShow0.premiereDigital = [] ∧
    mShow0.premiereCinema = [] ∧ mShow0.facts = [] ∧ mShow0.allNamesString = [] ∧
    mShow0.enName = [] ∧ mShow0.networks = [] ∧ mShow0.networksLinks = [] ∧
    mShow0.productionCompanies = [] ∧ mShow0.productionCompaniesLinks = [] ∧
    mShow0.distributor = [] ∧ mShow0.distributorRelease = [] ∧
    mShow0.sequelsAndPrequels = [] ∧ mShow0.sequelsAndPrequelsLinks = [] ∧
    mShow0.kinopoiskUrl = ["https://www.kinopoisk.ru/film/0/"] ∧
    mShow0.id = 0 ∧ mShow0.year = 0 ∧ mShow0.movieLength = 0 ∧
    mShow0.seriesLength = 0 ∧ mShow0.totalSeriesLength = 0 ∧
    mShow0.seasonsCount = 0 ∧ mShow0.seriesInSeasonCount = 0 ∧
    mShow0.ratingKp = 0 ∧ mShow0.ratingImdb = 0 ∧ mShow0.ratingFilmCritics = 0 ∧
    mShow0.ratingRussianFilmCritics = 0 ∧ mShow0.votesKp = 0 ∧
    mShow0.votesImdb = 0 ∧ mShow0.votesFilmCritics = 0 ∧
    mShow0.votesRussianFilmCritics = 0 ∧ mShow0.tmdbId = 0 ∧
    mShow0.ageRating = 0 ∧ mShow0.budgetValue = 0 ∧ mShow0.feesWorldValue = 0 ∧
    mShow0.feesRussiaValue = 0 ∧ mShow0.feesUsaValue = 0 ∧
    mShow0.releaseYearsStart = 0 ∧ mShow0.releaseYearsEnd = 0 ∧
    mShow0.top10 = 0 ∧ mShow0.top250 = 0 ∧
    mShow0.isSeries = false ∧ mShow0.isComplete = false ∧
    mShow0.nameForFile = "" ∧ mShow0.alternativeNameForFile = "" ∧
    mShow0.enNameForFile = "" := by
  repeat' apply And.intro
  all_goals decide

/-- Claim C3, counterexample: the image reference constructed for a poster
with the local path attachments/x.jpg keeps the whole path in the embed
token; the path components are not stripped. -/
theorem createMovieShowFrom_localPoster_keeps_path :
    (DataFormatter.createMovieShowFrom rawLocalPoster).posterImageLink =
      ["![[attachments/x.jpg]]"] ∧
    (["![[attachments/x.jpg]]"] : List String) ≠ ["![[x.jpg]]"] := by
  decide

/-- Claim C3, amended: both image-link builders map a blank URL to the empty
sequence and an HTTP(S) URL to the one-element remote embed; for a non-HTTP
path, the DataFormatter variant used for the poster, cover and logo fields
embeds the path as given, while the imageUtils variant used after a download
embeds only the last path segment. -/
theorem createImageLink_spec :
    (∀ p : String, jsTrim p = "" → DataFormatter.createImageLink p = []) ∧
    (∀ p : String, jsTrim p ≠ "" → strBeginsWith p "http" = false →
      DataFormatter.createImageLink p = ["![[" ++ p ++ "]]"]) ∧
    (∀ p : String, jsTrim p ≠ "" → strBeginsWith p "http" = true →
      DataFormatter.createImageLink p = ["![](" ++ p ++ ")"]) ∧
    (∀ p : String, jsTrim p = "" → ImageUtils.createImageLink p = []) ∧
    (∀ p : String, jsTrim p ≠ "" → strBeginsWith p "http" = false →
      ImageUtils.createImageLink p = ["![[" ++ ImageUtils.lastPathSegment p ++ "]]"]) ∧
    (∀ p : String, jsTrim p ≠ "" → strBeginsWith p "http" = true →
      ImageUtils.createImageLink p = ["![](" ++ p ++ ")"]) ∧
    ImageUtils.lastPathSegment "attachments/x.jpg" = "x.jpg" ∧
    ImageUtils.createImageLink "attachments/x.jpg" = ["![[x.jpg]]"] ∧
    DataFormatter.createImageLink "attachments/x.jpg" = ["![[attachments/x.jpg]]"] ∧
    DataFormatter.createImageLink "https://img.example/x.jpg" =
      ["![](https://img.example/x.jpg)"] := by
  refine ⟨?_, ?_, ?_, ?_, ?_, ?_, by decide, by decide, by decide, by decide⟩
  · intro p h
    simp [DataFormatter.createImageLink, h]
  · intro p h hb
    have hp : ¬ p = "" := fun he => h (by rw [he]; decide)
    simp [DataFormatter.createImageLink, h, hb, hp]
  · intro p h hb
    have hp : ¬ p = "" := fun he => h (by rw [he]; decide)
    simp [DataFormatter.createImageLink, h, hb, hp]
  · intro p h
    simp [ImageUtils.createImageLink, h]
  · intro p h hb
    have hp : ¬ p = "" := fun he => h (by rw [he]; decide)
    simp [ImageUtils.createImageLink, h, hb, hp]
  · intro p h hb
    have hp : ¬ p = "" := fun he => h (by rw [he]; decide)
    simp [ImageUtils.createImageLink, h, hb, hp]

/-- Claim C3, witness for the hypotheses of the amended theorem: the local
path attachments/x.jpg is non-blank and not HTTP, and the imageUtils builder
embeds only the file name. -/
theorem createImageLink_spec_witness :
    ImageUtils.createImageLink "attachments/x.jpg" =
      ["![[" ++ ImageUtils.lastPathSegment "attachments/x.jpg" ++ "]]"] :=
  createImageLink_spec.2.2.2.2.1 "attachments/x.jpg" (by decide) (by decide)

/-- Claim C10: every genre name is passed through `capitalizeFirstLetter`
before formatting, for both the plain genres field and the genres links
field, while the other relational families (countries, people, networks,
production companies, related titles, alternative names) are formatted from
their raw names without capitalization; on a record with lowercase names in
every family, only the genre entries come out capitalized. -/
theorem genres_capitalized_only :
    (∀ raw : KinopoiskFullInfo,
      (DataFormatter.createMovieShowFrom raw).genres =
        DataFormatter.formatArray
          (raw.genres.map (fun g => capitalizeFirstLetter g.name))
          DataFormatter.FormatType.SHORT_VALUE DataFormatter.MAX_ARRAY_ITEMS ∧
      (DataFormatter.createMovieShowFrom raw).genresLinks =
        DataFormatter.formatArray
          (raw.genres.map (fun g => capitalizeFirstLetter g.name))
          DataFormatter.FormatType.LINK DataFormatter.MAX_ARRAY_ITEMS ∧
      (DataFormatter.createMovieShowFrom raw).countries =
        DataFormatter.formatArray (raw.countries.map KinopoiskSimpleItem.name)
          DataFormatter.FormatType.SHORT_VALUE DataFormatter.MAX_ARRAY_ITEMS) ∧
    (DataFormatter.createMovieShowFrom rawLower).genres = ["Драма", "Action"] ∧
    (DataFormatter.createMovieShowFrom rawLower).genresLinks =
      ["\"[[Драма]]\"", "\"[[Action]]\""] ∧
    (DataFormatter.createMovieShowFrom rawLower).countries = ["france"] ∧
    (DataFormatter.createMovieShowFrom rawLower).actors = ["john smith"] ∧
    (DataFormatter.createMovieShowFrom rawLower).networks = ["hbo"] ∧
    (DataFormatter.createMovieShowFrom rawLower).productionCompanies = ["warner"] ∧
    (DataFormatter.createMovieShowFrom rawLower).sequelsAndPrequels = ["dune"] ∧
    (DataFormatter.createMovieShowFrom rawLower).allNamesString = ["le film"] := by
  exact ⟨fun raw => ⟨rfl, rfl, rfl⟩, by decide, by decide, by decide, by decide,
    by decide, by decide, by decide, by decide⟩

theorem quoteItem_plain {x : String} (h1 : mdLinkLike x = false)
    (h2 : beginsQuote x = false) : quoteItem x = x := by
  simp [quoteItem, h1, h2]

theorem stripOuterQuotes_plain {x : String} (h2 : beginsQuote x = false) :
    stripOuterQuotes x = x := by
  simp [stripOuterQuotes, h2]

/-- Claim C2, counterexample: for a normalized record whose genres field is
the two-element list Action, Drama, the header occurrence of the genres
placeholder is substituted with the very same unquoted text as the body
occurrence; no quoted token is produced. -/
theorem render_genres_header_unquoted :
    replaceVariableSyntax mShowG
      "---\ngenres: \x7b\x7bgenres\x7d\x7d\n---\nGenres: \x7b\x7bgenres\x7d\x7d" =
      "---\ngenres: Action, Drama\n---\nGenres: Action, Drama" ∧
    getQuotedValueFromArray (Value.arr ["Action", "Drama"]) = "Action, Drama" ∧
    ("Action, Drama" : String) ≠ "\"Action, Drama\"" := by
  refine ⟨by decide, by decide, by decide⟩

/-- Claim C2, amended: for an array value none of whose elements is already
double-quoted or markdown-link-like, the header (quoted) encoding and the
body (plain) encoding coincide, so both occurrences of the genres
placeholder render as the same unquoted text Action, Drama. -/
theorem quoted_plain_coincide_on_plain_arrays :
    (∀ xs : List String,
      (∀ x ∈ xs, beginsQuote x = false ∧ mdLinkLike x = false) →
      getQuotedValueFromArray (Value.arr xs) = getPlainValueFromArray (Value.arr xs)) ∧
    getQuotedValueFromArray (Value.arr ["Action", "Drama"]) =
      getPlainValueFromArray (Value.arr ["Action", "Drama"]) ∧
    getPlainValueFromArray (Value.arr ["Action", "Drama"]) = "Action, Drama" := by
  refine ⟨?_, by decide, by decide⟩
  intro xs h
  match xs with
  | [] => rfl
  | [x] =>
    obtain ⟨h2, h1⟩ := h x (by simp)
    simp [getQuotedValueFromArray, getPlainValueFromArray,
      quoteItem_plain h1 h2, stripOuterQuotes_plain h2]
  | x :: y :: rest =>
    have hmap : (x :: y :: rest).map quoteItem =
        (x :: y :: rest).map stripOuterQuotes := by
      apply List.map_congr_left
      intro a ha
      obtain ⟨h2, h1⟩ := h a ha
      rw [quoteItem_plain h1 h2, stripOuterQuotes_plain h2]
    simp only [getQuotedValueFromArray, getPlainValueFromArray, hmap]

/-- Claim C2, witness for the hypothesis of the amended theorem at the
two-element genre list. -/
theorem quoted_plain_coincide_witness :
    getQuotedValueFromArray (Value.arr ["Action", "Drama"]) =
      getPlainValueFromArray (Value.arr ["Action", "Drama"]) :=
  quoted_plain_coincide_on_plain_arrays.1 ["Action", "Drama"] (by decide)

/-- Claim C4: `formatArray` drops blank entries and truncates to `maxItems`,
so its output length is bounded by `maxItems` in every mode; when every
input entry trims to the empty string the output is empty; and the facts
pipeline is additionally capped at `MAX_FACTS_COUNT` before formatting.  The
defaults are 15 and 5. -/
theorem formatArray_length_spec :
    (∀ (items : List String) (ft : DataFormatter.FormatType) (maxItems : Nat),
      (DataFormatter.formatArray items ft maxItems).length ≤ maxItems) ∧
    (∀ (items : List String) (ft : DataFormatter.FormatType) (maxItems : Nat),
      (∀ s ∈ items, jsTrim s = "") →
      (DataFormatter.formatArray items ft maxItems).length = 0) ∧
    (∀ facts : List KinopoiskFact,
      (DataFormatter.formatArray (DataFormatter.processFacts facts)
        DataFormatter.FormatType.LONG_TEXT DataFormatter.MAX_ARRAY_ITEMS).length ≤
        DataFormatter.MAX_FACTS_COUNT) ∧
    DataFormatter.MAX_ARRAY_ITEMS = 15 ∧ DataFormatter.MAX_FACTS_COUNT = 5 := by
  have hlen : ∀ (items : List String) (ft : DataFormatter.FormatType) (k : Nat),
      (DataFormatter.formatArray items ft k).length =
        ((items.filter (fun item => item ≠ "" && jsTrim item ≠ "")).take k).length := by
    intro items ft k
    cases ft <;> simp [DataFormatter.formatArray]
  refine ⟨?_, ?_, ?_, rfl, rfl⟩
  · intro items ft k
    rw [hlen]
    exact (List.length_take _ _).le.trans (Nat.min_le_left _ _)
  · intro items ft k h
    rw [hlen]
    have hnil : items.filter (fun item => item ≠ "" && jsTrim item ≠ "") = [] := by
      apply List.filter_eq_nil_iff.mpr
      intro a ha
      simp [h a ha]
    rw [hnil]
    simp
  · intro facts
    rw [hlen]
    calc (((DataFormatter.processFacts facts).filter
            (fun item => item ≠ "" && jsTrim item ≠ "")).take
              DataFormatter.MAX_ARRAY_ITEMS).length
        ≤ ((DataFormatter.processFacts facts).filter
            (fun item => item ≠ "" && jsTrim item ≠ "")).length :=
          (List.length_take _ _).le.trans (Nat.min_le_right _ _)
      _ ≤ (DataFormatter.processFacts facts).length := List.length_filter_le _ _
      _ ≤ DataFormatter.MAX_FACTS_COUNT := by
          simp only [DataFormatter.processFacts, List.length_map]
          exact (List.length_take _ _).le.trans (Nat.min_le_left _ _)

/-- Claim C4, witness for the all-blank hypothesis: two blank entries format
to the empty sequence. -/
theorem formatArray_length_spec_witness :
    (DataFormatter.formatArray ["", "  "] DataFormatter.FormatType.SHORT_VALUE
      15).length = 0 :=
  formatArray_length_spec.2.1 ["", "  "] DataFormatter.FormatType.SHORT_VALUE 15
    (by decide)

theorem substituteAll_error_skip {enc : Value → Except String String} {k : String}
    {v : Value} {e : String} (h : enc v = Except.error e)
    (pre post : List (String × Value)) (region : String) :
    substituteAll enc (pre ++ (k, v) :: post) region =
      substituteAll enc (pre ++ post) region := by
  simp only [substituteAll, List.foldl_append, List.foldl_cons, h]

/-- Claim C5: template substitution never fails as a whole.  A field whose
encoding throws in both regions contributes nothing: the render is the same
as the render without that entry, while every other field is still
substituted (and the abandoned placeholder is later removed by the stray
token pass inside the render).  The outer catch returns the original
template text unmodified whenever the whole substitution fails. -/
theorem render_per_field_failure_isolated :
    (∀ (encQ encP : Value → Except String String)
      (pre post : List (String × Value)) (k : String) (v : Value)
      (e1 e2 : String) (text : String),
      encQ v = Except.error e1 → encP v = Except.error e2 →
      replaceVariableSyntaxWith encQ encP (pre ++ (k, v) :: post) text =
        replaceVariableSyntaxWith encQ encP (pre ++ post) text) ∧
    (∀ (run : String → Except String String) (text : String) (e : String),
      jsTrim text ≠ "" → run text = Except.error e →
      replaceVariableSyntaxCaught run text = text) := by
  constructor
  · intro encQ encP pre post k v e1 e2 text hq hp
    by_cases ht : jsTrim text = ""
    · simp [replaceVariableSyntaxWith, replaceVariableSyntaxCaught, ht]
    · simp only [replaceVariableSyntaxWith, replaceVariableSyntaxCaught, if_neg ht]
      unfold renderCore
      cases hsp : splitFrontmatter text.data with
      | none =>
        dsimp only
        rw [substituteAll_error_skip hp]
      | some pr =>
        cases pr with
        | mk fm body =>
          dsimp only
          rw [substituteAll_error_skip hq, substituteAll_error_skip hp]
  · intro run text e hne hr
    simp [replaceVariableSyntaxCaught, hne, hr]

/-- Claim C5, witness: with an encoder that always throws, the entry for id
is skipped without aborting the render, and a failing total substitution
returns the template unchanged. -/
theorem render_per_field_failure_isolated_witness :
    replaceVariableSyntaxWith failEnc failEnc [("id", Value.num 0)]
        "x \x7b\x7bid\x7d\x7d" =
      replaceVariableSyntaxWith failEnc failEnc [] "x \x7b\x7bid\x7d\x7d" ∧
    replaceVariableSyntaxCaught (fun _ => Except.error "boom") "template text" =
      "template text" :=
  ⟨render_per_field_failure_isolated.1 failEnc failEnc [] [] "id" (Value.num 0)
      "boom" "boom" "x \x7b\x7bid\x7d\x7d" rfl rfl,
   render_per_field_failure_isolated.2 (fun _ => Except.error "boom")
      "template text" "boom" (by decide) rfl⟩

/-- Claim C6: the final pass deletes every remaining placeholder token
(opening braces, one or more word characters, closing braces) and resumes
after the deleted token, and the final result is trimmed; in particular a
template containing the nonexistentField token renders with the token
removed, and leading and trailing whitespace is trimmed. -/
theorem stray_tokens_removed_and_trimmed :
    (∀ (w rest : List Char), w ≠ [] → (∀ c ∈ w, isWordChar c = true) →
      removeStray ('\x7b' :: '\x7b' :: (w ++ '\x7d' :: '\x7d' :: rest)) =
        removeStray rest) ∧
    replaceVariableSyntax mShow0 "Intro \x7b\x7bnonexistentField\x7d\x7d end" =
      "Intro  end" ∧
    replaceVariableSyntax mShow0 "  \x7b\x7bunknownToken\x7d\x7d hi  " = "hi" :=
  ⟨removeStray_token, by decide, by decide⟩

/-- Claim C6, witness for the token-removal hypotheses at a concrete two
letter token. -/
theorem stray_tokens_removed_witness :
    removeStray ('\x7b' :: '\x7b' :: (['a', 'b'] ++ '\x7d' :: '\x7d' :: [' ', 'x'])) =
      removeStray [' ', 'x'] :=
  stray_tokens_removed_and_trimmed.1 ['a', 'b'] [' ', 'x'] (by decide) (by decide)

/-- Claim C9: `processImages` returns its input record with at most the
three image-reference fields changed, whatever the settings and whatever the
download collaborator does; and when local image saving is disabled the
record is returned entirely unchanged. -/
theorem processImages_frame :
    (∀ (settings : ImageUtils.ImageSettings)
      (oracle : String → String → Except Unit String) (urlOk : String → Bool)
      (m : MovieShow),
      ∃ p c l, ImageUtils.processImages settings oracle urlOk m =
        { m with posterImageLink := p, coverImageLink := c, logoImageLink := l }) ∧
    (∀ (settings : ImageUtils.ImageSettings)
      (oracle : String → String → Except Unit String) (urlOk : String → Bool)
      (m : MovieShow), settings.saveImagesLocally = false →
      ImageUtils.processImages settings oracle urlOk m = m) := by
  constructor
  · intro settings oracle urlOk m
    unfold ImageUtils.processImages
    split
    · exact ⟨_, _, _, rfl⟩
    · split
      · exact ⟨_, _, _, rfl⟩
      · exact ⟨_, _, _, rfl⟩
  · intro settings oracle urlOk m h
    simp [ImageUtils.processImages, h]

/-- Claim C9, witness: with local saving disabled the record comes back
unchanged. -/
theorem processImages_frame_witness :
    ImageUtils.processImages ⟨false, "", false, false, false⟩
      (fun _ _ => Except.error ()) (fun _ => false) mShow0 = mShow0 :=
  processImages_frame.2 ⟨false, "", false, false, false⟩
    (fun _ _ => Except.error ()) (fun _ => false) mShow0 rfl

/-- Claim C8: `formatDate` returns the empty string for an absent input, an
unparseable date string, and a parsed date whose calendar year lies outside
1800..2100; otherwise it returns the date rendered as YYYY-MM-DD.  The year
1800 is accepted with a non-empty result and a date in 1799 formats to the
empty string. -/
theorem formatDate_spec :
    DataFormatter.formatDate none = "" ∧
    (∀ s : String, DataFormatter.parseIsoDate s = none →
      DataFormatter.formatDate (some s) = "") ∧
    (∀ (s : String) (y m d : Nat),
      DataFormatter.parseIsoDate s = some (y, m, d) → (y < 1800 ∨ y > 2100) →
      DataFormatter.formatDate (some s) = "") ∧
    (∀ (s : String) (y m d : Nat),
      DataFormatter.parseIsoDate s = some (y, m, d) → 1800 ≤ y → y ≤ 2100 →
      DataFormatter.formatDate (some s) = DataFormatter.renderIsoDate y m d) ∧
    DataFormatter.formatDate (some "1800-01-01") = "1800-01-01" ∧
    ("1800-01-01" : String) ≠ "" ∧
    DataFormatter.formatDate (some "1799-12-31") = "" ∧
    DataFormatter.formatDate (some "not a date") = "" := by
  refine ⟨rfl, ?_, ?_, ?_, by decide, by decide, by decide, by decide⟩
  · intro s h
    by_cases hs : s = ""
    · subst hs; rfl
    · simp [DataFormatter.formatDate, hs, h]
  · intro s y m d h hy
    have hs : ¬ s = "" := by
      intro he
      subst he
      simp [DataFormatter.parseIsoDate, DataFormatter.parse4] at h
    unfold DataFormatter.formatDate
    dsimp only
    rw [if_neg hs, h]
    dsimp only
    rw [if_pos hy]
  · intro s y m d h h1 h2
    have hs : ¬ s = "" := by
      intro he
      subst he
      simp [DataFormatter.parseIsoDate, DataFormatter.parse4] at h
    have hy : ¬ (y < 1800 ∨ y > 2100) := by omega
    unfold DataFormatter.formatDate
    dsimp only
    rw [if_neg hs, h]
    dsimp only
    rw [if_neg hy]

/-- Claim C8, witness: the theorem applied to an unparseable string and to
an out-of-range parsed date. -/
theorem formatDate_spec_witness :
    DataFormatter.formatDate (some "99/99/9999") = "" ∧
    DataFormatter.formatDate (some "1750-06-15") = "" :=
  ⟨formatDate_spec.2.1 "99/99/9999" (by decide),
   formatDate_spec.2.2.1 "1750-06-15" 1750 6 15 (by decide) (Or.inl (by decide))⟩

/-- Claim C7: `makeFileName` returns the cleaned base name with the md
extension when the existence check is false for it; otherwise it returns the
first candidate with the localized copy word and index 1, 2, 3, ... for
which the existence check is false; with base name Inception (2010) and an
existence check true only for Inception (2010).md, the result carries the
copy suffix with index 1. -/
theorem makeFileName_collision_spec :
    (∀ (existsCheck : String → Bool) (uw cw : String) (m : MovieShow)
      (fmt fp : Option String) (cb : String)
      (hfree : ∃ n, existsCheck (withFolder fp (copyCandidateName
        (replaceIllegalFileNameCharactersInString (makeBaseName uw m fmt))
        cw (n + 1))) = false),
      replaceIllegalFileNameCharactersInString (makeBaseName uw m fmt) = cb →
      jsTrim cb ≠ "" →
      existsCheck (withFolder fp (cb ++ ".md")) = false →
      makeFileName existsCheck uw cw m fmt fp hfree = cb ++ ".md") ∧
    (∀ (existsCheck : String → Bool) (uw cw : String) (m : MovieShow)
      (fmt fp : Option String) (cb : String) (n : Nat)
      (hfree : ∃ k, existsCheck (withFolder fp (copyCandidateName
        (replaceIllegalFileNameCharactersInString (makeBaseName uw m fmt))
        cw (k + 1))) = false),
      replaceIllegalFileNameCharactersInString (makeBaseName uw m fmt) = cb →
      jsTrim cb ≠ "" →
      existsCheck (withFolder fp (cb ++ ".md")) = true →
      (∀ j, 1 ≤ j → j ≤ n →
        existsCheck (withFolder fp (copyCandidateName cb cw j)) = true) →
      existsCheck (withFolder fp (copyCandidateName cb cw (n + 1))) = false →
      makeFileName existsCheck uw cw m fmt fp hfree =
        copyCandidateName cb cw (n + 1)) ∧
    (∀ hfree, makeFileName inceptionExists "Unknown Movie" "Copy" mShowInception
      none none hfree = "Inception (2010) (Copy[1]).md") := by
  have part2 : ∀ (existsCheck : String → Bool) (uw cw : String) (m : MovieShow)
      (fmt fp : Option String) (cb : String) (n : Nat)
      (hfree : ∃ k, existsCheck (withFolder fp (copyCandidateName
        (replaceIllegalFileNameCharactersInString (makeBaseName uw m fmt))
        cw (k + 1))) = false),
      replaceIllegalFileNameCharactersInString (makeBaseName uw m fmt) = cb →
      jsTrim cb ≠ "" →
      existsCheck (withFolder fp (cb ++ ".md")) = true →
      (∀ j, 1 ≤ j → j ≤ n →
        existsCheck (withFolder fp (copyCandidateName cb cw j)) = true) →
      existsCheck (withFolder fp (copyCandidateName cb cw (n + 1))) = false →
      makeFileName existsCheck uw cw m fmt fp hfree =
        copyCandidateName cb cw (n + 1) := by
    intro ec uw cw m fmt fp cb n hfree hcb ht hex hall hfreeN
    subst hcb
    have hnc : ¬ (ec (withFolder fp
        (replaceIllegalFileNameCharactersInString (makeBaseName uw m fmt) ++ ".md")) =
        false) := by
      simp [hex]
    have hfind : Nat.find hfree = n := by
      rw [Nat.find_eq_iff]
      refine ⟨hfreeN, ?_⟩
      intro k hk
      have hkk := hall (k + 1) (by omega) (by omega)
      simp [hkk]
    simp only [makeFileName]
    rw [if_neg ht, if_neg hnc, hfind]
  refine ⟨?_, part2, ?_⟩
  · intro ec uw cw m fmt fp cb hfree hcb ht hex
    subst hcb
    simp only [makeFileName]
    rw [if_neg ht, if_pos hex]
  · intro hfree
    exact part2 inceptionExists "Unknown Movie" "Copy" mShowInception none none
      "Inception (2010)" 0 hfree (by decide) (by decide) (by decide)
      (fun j hj1 hj2 => absurd (Nat.le_trans hj1 hj2) (by decide))
      (by decide)

/-- Claim C7, witness: with an existence check that is always false the base
name itself is returned. -/
theorem makeFileName_collision_spec_witness :
    makeFileName (fun _ => false) "Unknown Movie" "Copy" mShowInception none none
      ⟨0, rfl⟩ = "Inception (2010).md" :=
  makeFileName_collision_spec.1 (fun _ => false) "Unknown Movie" "Copy"
    mShowInception none none "Inception (2010)" ⟨0, rfl⟩ (by decide) (by decide) rfl
